import Mathlib

/-!
Shallow embedding of the WhatsApp Flows endpoint core
(`src/encryption.py` and `src/server.py`).

Byte strings are modelled as `List Nat` (each element a byte value).
Calls into the `cryptography`, `base64`, `json` and `hmac`/`hashlib`
libraries are modelled as an abstract bundle of primitives
(`CryptoPrims`); the repository's own glue code is translated
statement by statement.  Python exceptions become `Except` error
values: library calls raise `LibError`s, and the repository's own
`FlowEndpointException` is the only further error class.
-/

/-- Exceptions that external library calls can raise
(`ValueError`, `TypeError`, `binascii.Error`, `InvalidTag`,
`UnicodeDecodeError`, `json.JSONDecodeError`).  The library can never
raise the repository's own `FlowEndpointException`. -/
inductive LibError where
  | typeError
  | valueError
  | binasciiError
  | invalidTag
  | unicodeDecodeError
  | jsonDecodeError
  deriving Repr, DecidableEq

/-- Python exceptions as seen by `server.py`'s `try`/`except` blocks:
either the `FlowEndpointException` defined in `encryption.py`
(carrying a status code and a message, lines 15-19) or an
unclassified library exception. -/
inductive PyError where
  | flowEndpoint (status_code : Nat) (message : String)
  | lib (e : LibError)
  deriving Repr, DecidableEq

/-- Models the `isinstance` test performed by
`except FlowEndpointException` in `server.py` (line 84). -/
def isFlowEndpointException : PyError → Bool
  | PyError.flowEndpoint _ _ => true
  | PyError.lib _ => false

/-- JSON-like values (Python dict / list / scalar values), the
plaintext payload type.  The codec treats these as opaque data. -/
inductive JsonVal where
  | null
  | bool (b : Bool)
  | num (n : Int)
  | str (s : String)
  | arr (xs : List JsonVal)
  | obj (fields : List (String × JsonVal))

/-- Abstract interface to the external libraries used by
`encryption.py` and `server.py`.  Each field models one library
call; its behaviour is constrained only by the hypotheses of the
theorems below (the documented contracts of the real libraries). -/
structure CryptoPrims where
  /-- Type of the private-key object returned by
  `serialization.load_pem_private_key`. -/
  PrivKey : Type
  /-- Models `serialization.load_pem_private_key(pem_bytes, password)`;
  raises (e.g. `ValueError`) on a corrupted key blob or a passphrase
  mismatch. -/
  loadPemPrivateKey : List Nat → Option (List Nat) → Except LibError PrivKey
  /-- Models `private_key.decrypt(data, padding.OAEP(mgf=MGF1(SHA256),
  algorithm=SHA256, label=None))`. -/
  rsaOaepDecrypt : PrivKey → List Nat → Except LibError (List Nat)
  /-- Models the whole symmetric decryption
  `decryptor.update(body) + decryptor.finalize()` for
  `Cipher(AES(key), GCM(iv, tag))`: arguments are key, iv,
  ciphertext body, tag; raises `InvalidTag` on tag mismatch. -/
  aesGcmDecrypt : List Nat → List Nat → List Nat → List Nat → Except LibError (List Nat)
  /-- Models `encryptor.update(pt) + encryptor.finalize()` followed by
  reading `encryptor.tag` for `Cipher(AES(key), GCM(iv))`: arguments
  are key, iv, plaintext; result is (ciphertext, tag). -/
  aesGcmEncrypt : List Nat → List Nat → List Nat → List Nat × List Nat
  /-- Models `base64.b64decode` on a string argument. -/
  b64decode : String → Except LibError (List Nat)
  /-- Models `base64.b64encode(..).decode('utf-8')`. -/
  b64encode : List Nat → String
  /-- Models `str.encode('utf-8')`. -/
  utf8Encode : String → List Nat
  /-- Models `bytes.decode('utf-8')`. -/
  utf8Decode : List Nat → Except LibError String
  /-- Models `json.dumps`. -/
  jsonDumps : JsonVal → String
  /-- Models `json.loads`. -/
  jsonLoads : String → Except LibError JsonVal
  /-- Models `hmac.new(secret_bytes, raw_body, hashlib.sha256).hexdigest()`. -/
  hmacSha256Hex : List Nat → List Nat → String

/-- The inbound wire format: the three fields read by
`decrypt_request` via `body.get(...)` (`src/encryption.py`
lines 34-36); a missing JSON field yields `none`. -/
structure RequestBody where
  encrypted_aes_key : Option String
  encrypted_flow_data : Option String
  initial_vector : Option String

/-- The dict returned by a successful `decrypt_request`
(`src/encryption.py` lines 80-84). -/
structure DecryptedRequest where
  decrypted_body : JsonVal
  aes_key : List Nat
  initial_vector : List Nat

/-- Models `base64.b64decode` applied to the result of `body.get`:
`b64decode(None)` raises a `TypeError`. -/
def pyB64decode (prims : CryptoPrims) : Option String → Except LibError (List Nat)
  | none => Except.error LibError.typeError
  | some s => prims.b64decode s

/-- The body of the `try` block of `decrypt_request`
(`src/encryption.py` lines 46-54): base64-decode the wrapped key and
RSA-OAEP-decrypt it with the loaded private key. -/
def keyUnwrapStep (prims : CryptoPrims) (private_key : prims.PrivKey)
    (encrypted_aes_key : Option String) : Except LibError (List Nat) :=
  match pyB64decode prims encrypted_aes_key with
  | Except.error e => Except.error e
  | Except.ok wrapped => prims.rsaOaepDecrypt private_key wrapped

/-- Models Python's `buf[:-n]` for `n > 0`: all but the last `n`
elements, or `[]` when the buffer is shorter than `n`. -/
def pySliceToNeg (l : List Nat) (n : Nat) : List Nat :=
  l.take (l.length - n)

/-- Models Python's `buf[-n:]` for `n > 0`: the last `n` elements, or
the whole buffer when it is shorter than `n`. -/
def pySliceFromNeg (l : List Nat) (n : Nat) : List Nat :=
  l.drop (l.length - n)

/-- The constant `TAG_LENGTH = 16` of `src/encryption.py` line 66. -/
def TAG_LENGTH : Nat := 16

/-- The message of the `FlowEndpointException` raised on key-unwrap
failure (`src/encryption.py` lines 57-60). -/
def msg421 : String :=
  "Failed to decrypt the request. Please verify your private key."

/-- Shallow embedding of `decrypt_request(body, private_pem,
passphrase)` (`src/encryption.py` lines 22-84).

The private key is loaded first (lines 39-43, outside any
`try`/`except`), so a load failure propagates as an unclassified
exception.  The `try` block around the key unwrap (lines 46-60)
converts any failure there into `FlowEndpointException(421, ...)`.
The `if` on the tag length models the validation performed by the
`cryptography` library's `modes.GCM(iv, tag)` constructor, which
raises `ValueError` when the supplied tag is shorter than 16 bytes;
all other cipher validation and the tag check itself are folded into
the abstract `aesGcmDecrypt`. -/
def decryptRequest (prims : CryptoPrims) (body : RequestBody)
    (private_pem : String) (passphrase : String) :
    Except PyError DecryptedRequest :=
  let passphrase_bytes :=
    if passphrase = "" then none else some (prims.utf8Encode passphrase)
  match prims.loadPemPrivateKey (prims.utf8Encode private_pem) passphrase_bytes with
  | Except.error e => Except.error (PyError.lib e)
  | Except.ok private_key =>
    match keyUnwrapStep prims private_key body.encrypted_aes_key with
    | Except.error _ => Except.error (PyError.flowEndpoint 421 msg421)
    | Except.ok decrypted_aes_key =>
      match pyB64decode prims body.encrypted_flow_data with
      | Except.error e => Except.error (PyError.lib e)
      | Except.ok flow_data_buffer =>
        match pyB64decode prims body.initial_vector with
        | Except.error e => Except.error (PyError.lib e)
        | Except.ok initial_vector_buffer =>
          let encrypted_flow_data_body := pySliceToNeg flow_data_buffer TAG_LENGTH
          let encrypted_flow_data_tag := pySliceFromNeg flow_data_buffer TAG_LENGTH
          if encrypted_flow_data_tag.length < TAG_LENGTH then
            Except.error (PyError.lib LibError.valueError)
          else
            match prims.aesGcmDecrypt decrypted_aes_key initial_vector_buffer
                encrypted_flow_data_body encrypted_flow_data_tag with
            | Except.error e => Except.error (PyError.lib e)
            | Except.ok decrypted_data =>
              match prims.utf8Decode decrypted_data with
              | Except.error e => Except.error (PyError.lib e)
              | Except.ok decrypted_json_string =>
                match prims.jsonLoads decrypted_json_string with
                | Except.error e => Except.error (PyError.lib e)
                | Except.ok j =>
                  Except.ok ⟨j, decrypted_aes_key, initial_vector_buffer⟩

/-- Models the Python expression `~b & 0xFF` on a byte value `b`
(`src/encryption.py` line 100): two's-complement negation-minus-one
followed by masking to the low 8 bits. -/
def flipByte (b : Nat) : Nat :=
  ((-((b : Int) + 1)) % 256).toNat

/-- Models `bytes(~b & 0xFF for b in initial_vector)`
(`src/encryption.py` line 100). -/
def flipIV (iv : List Nat) : List Nat :=
  iv.map flipByte

/-- Shallow embedding of `encrypt_response(response, aes_key,
initial_vector)` (`src/encryption.py` lines 87-115): flip the IV,
AES-GCM-encrypt the UTF-8 JSON serialization of the response under
the key and flipped IV, append the authentication tag to the
ciphertext, and base64-encode the concatenation. -/
def encryptResponse (prims : CryptoPrims) (response : JsonVal)
    (aes_key : List Nat) (initial_vector : List Nat) : String :=
  let flipped_iv := flipIV initial_vector
  let response_bytes := prims.utf8Encode (prims.jsonDumps response)
  let p := prims.aesGcmEncrypt aes_key flipped_iv response_bytes
  prims.b64encode (p.1 ++ p.2)

/-- Models the ASCII-only check `hmac.compare_digest` performs on
`str` arguments: every character below code point 128. -/
def isAsciiString (s : String) : Bool :=
  s.data.all (fun c => c.toNat < 128)

/-- Models `hmac.compare_digest` on two `str` arguments: it raises
`TypeError` ("comparing strings with non-ASCII characters is not
supported") when either string contains a non-ASCII character, and
otherwise performs a constant-time comparison that is extensionally
string equality. -/
def compareDigest (a b : String) : Except LibError Bool :=
  if isAsciiString a && isAsciiString b then Except.ok (a == b)
  else Except.error LibError.typeError

/-- Recursion core of Python's `str.replace(old, "")` over character
lists: scan left to right, removing each non-overlapping occurrence
of `pat`. -/
def replaceAllGo (pat : List Char) : List Char → List Char
  | [] => []
  | c :: rest =>
    if h : pat ≠ [] ∧ pat.isPrefixOf (c :: rest) then
      replaceAllGo pat (List.drop pat.length (c :: rest))
    else
      c :: replaceAllGo pat rest
termination_by l => l.length
decreasing_by
  · simp only [List.length_drop, List.length_cons]
    cases pat with
    | nil => exact absurd rfl h.1
    | cons p ps => simp only [List.length_cons]; omega
  · simp only [List.length_cons]; omega

/-- Models Python's `s.replace(pat, "")`: every non-overlapping
occurrence of `pat` in `s` is removed, scanning left to right
(as used on the signature header, `src/server.py` line 42). -/
def pyReplaceErase (s pat : String) : String :=
  String.mk (replaceAllGo pat.data s.data)

/-- Shallow embedding of `is_request_signature_valid(signature_header,
raw_body)` (`src/server.py` lines 32-57), with the module-level
`APP_SECRET` passed explicitly (`none` models an unset environment
variable; Python's `if not APP_SECRET` is also falsy on the empty
string, and likewise for the header).  The function itself has no
`try`/`except`, so the `TypeError` that `hmac.compare_digest` raises
on a non-ASCII argument propagates to the caller. -/
def isRequestSignatureValid (prims : CryptoPrims) (app_secret : Option String)
    (signature_header : Option String) (raw_body : List Nat) :
    Except LibError Bool :=
  match app_secret with
  | none => Except.ok false
  | some secret =>
    if secret = "" then Except.ok false
    else
      match signature_header with
      | none => Except.ok false
      | some header =>
        if header = "" then Except.ok false
        else
          let signature := pyReplaceErase header "sha256="
          let expected_signature :=
            prims.hmacSha256Hex (prims.utf8Encode secret) raw_body
          match compareDigest expected_signature signature with
          | Except.error e => Except.error e
          | Except.ok cmp =>
            if cmp = false then Except.ok false else Except.ok true

/-- The HTTP response produced by the flow endpoint: either a bare
status code or an encrypted body (status 200). -/
inductive FlowResponse where
  | status (code : Nat)
  | content (body : String)
  deriving Repr, DecidableEq

/-- The two `except` clauses of `handle_flow_request`
(`src/server.py` lines 84-89): a `FlowEndpointException` is mapped to
its own status code, any other exception to status 500. -/
def decryptErrorResponse : PyError → FlowResponse
  | PyError.flowEndpoint s _ => FlowResponse.status s
  | PyError.lib _ => FlowResponse.status 500

/-- Shallow embedding of the `handle_flow_request` endpoint
(`src/server.py` lines 60-111): reject on a falsy private key (500),
then on an invalid signature (432); then decrypt, mapping errors via
the two `except` clauses, and on success encrypt the screen response
produced by the business logic (`get_next_screen`, abstracted).  The
signature check is called outside any `try`, so an exception raised
there escapes the endpoint and the framework answers 500. -/
def handleFlowRequest (prims : CryptoPrims) (app_secret : Option String)
    (private_key : Option String) (passphrase : String)
    (raw_body : List Nat) (signature_header : Option String)
    (body : RequestBody) (get_next_screen : JsonVal → JsonVal) : FlowResponse :=
  match private_key with
  | none => FlowResponse.status 500
  | some pk =>
    if pk = "" then FlowResponse.status 500
    else
      match isRequestSignatureValid prims app_secret signature_header raw_body with
      | Except.error _ => FlowResponse.status 500
      | Except.ok valid =>
        if valid = false then FlowResponse.status 432
        else
          match decryptRequest prims body pk passphrase with
          | Except.error e => decryptErrorResponse e
          | Except.ok dr =>
            FlowResponse.content
              (encryptResponse prims (get_next_screen dr.decrypted_body)
                dr.aes_key dr.initial_vector)

/-- Concrete instantiation of the library interface, used to evaluate
the theorems below on closed inputs.  It is a toy model: the "cipher"
is the identity with a constant 16-byte tag, base64 stores bytes as
character codes, and the serializer is the identity on strings. -/
def toyPrims : CryptoPrims where
  PrivKey := List Nat
  loadPemPrivateKey := fun pem _pass =>
    if pem = [] then Except.error LibError.valueError else Except.ok pem
  rsaOaepDecrypt := fun _priv wrapped =>
    if wrapped = [] then Except.error LibError.valueError else Except.ok wrapped
  aesGcmDecrypt := fun _key _iv ct tag =>
    if tag = List.replicate 16 0 then Except.ok ct
    else Except.error LibError.invalidTag
  aesGcmEncrypt := fun _key _iv pt => (pt, List.replicate 16 0)
  b64decode := fun s => Except.ok (s.data.map Char.toNat)
  b64encode := fun l => String.mk (l.map Char.ofNat)
  utf8Encode := fun s => s.data.map Char.toNat
  utf8Decode := fun l =>
    if l = [255] then Except.error LibError.unicodeDecodeError
    else Except.ok (String.mk (l.map Char.ofNat))
  jsonDumps := fun j => match j with | JsonVal.str s => s | _ => "null"
  jsonLoads := fun s =>
    if s = "bad json" then Except.error LibError.jsonDecodeError
    else Except.ok (JsonVal.str s)
  hmacSha256Hex := fun _key _body => "0a1b2c"

/-- On an actual byte value, `~b & 0xFF` is `255 - b`. -/
theorem flipByte_eq (b : Nat) (hb : b < 256) : flipByte b = 255 - b := by
  simp only [flipByte]
  omega

set_option maxRecDepth 4096 in
/-- On an actual byte value, `~b & 0xFF` is the bitwise complement,
i.e. XOR with `0xFF`. -/
theorem flipByte_xor (b : Nat) (hb : b < 256) : flipByte b = b ^^^ 255 := by
  have h : ∀ x : Fin 256, x.val ^^^ 255 = 255 - x.val := by decide
  rw [flipByte_eq b hb, h ⟨b, hb⟩]

/-- The byte flip is an involution on byte values. -/
theorem flipByte_involution (b : Nat) (hb : b < 256) :
    flipByte (flipByte b) = b := by
  rw [flipByte_eq b hb, flipByte_eq (255 - b) (by omega)]
  omega

/-- The IV flip transform is an involution on byte strings. -/
theorem flipIV_involution (iv : List Nat) (hb : ∀ b ∈ iv, b < 256) :
    flipIV (flipIV iv) = iv := by
  induction iv with
  | nil => rfl
  | cons x xs ih =>
    have hx : x < 256 := hb x (List.mem_cons_self x xs)
    have hxs : flipIV (flipIV xs) = xs :=
      ih fun b hbm => hb b (List.mem_cons_of_mem x hbm)
    simp only [flipIV, List.map_cons] at hxs ⊢
    rw [flipByte_involution x hx, hxs]

/-- C3: the IV used by `encrypt_response` for the symmetric cipher is
the bytewise complement (each byte XORed with `0xFF`) of the IV
supplied by the decrypt path, and the flip transform is its own
inverse on byte strings. -/
theorem encrypt_response_iv_flip (prims : CryptoPrims) (m : JsonVal)
    (k iv : List Nat) (hb : ∀ b ∈ iv, b < 256) :
    encryptResponse prims m k iv =
      prims.b64encode
        ((prims.aesGcmEncrypt k (flipIV iv) (prims.utf8Encode (prims.jsonDumps m))).1 ++
          (prims.aesGcmEncrypt k (flipIV iv) (prims.utf8Encode (prims.jsonDumps m))).2) ∧
    flipIV iv = iv.map (fun b => b ^^^ 255) ∧
    flipIV (flipIV iv) = iv := by
  refine ⟨rfl, ?_, ?_⟩
  · exact List.map_congr_left fun b hbm => flipByte_xor b (hb b hbm)
  · exact flipIV_involution iv hb

set_option maxRecDepth 4096 in
/-- Evaluation of `encrypt_response_iv_flip` on the spec's concrete
IV bytes `0xFE 0xDC 0xBA`, whose complement is `0x01 0x23 0x45`. -/
theorem encrypt_response_iv_flip_witness :
    flipIV [254, 220, 186] = [1, 35, 69] ∧
    flipIV (flipIV [254, 220, 186]) = [254, 220, 186] := by
  have h := encrypt_response_iv_flip toyPrims (JsonVal.str "x") []
    [254, 220, 186] (by decide)
  refine ⟨?_, h.2.2⟩
  rw [h.2.1]
  decide

/-- C4: `encrypt_response` returns exactly the base64 encoding of the
AES-GCM ciphertext of the UTF-8 JSON serialization of the response
under the key and the complemented IV, with the 16-byte
authentication tag appended after (never before) the ciphertext and
nothing else. -/
theorem encrypt_response_output_format (prims : CryptoPrims) (m : JsonVal)
    (k iv ct tag : List Nat)
    (henc : prims.aesGcmEncrypt k (flipIV iv) (prims.utf8Encode (prims.jsonDumps m)) = (ct, tag))
    (hb64 : prims.b64decode (prims.b64encode (ct ++ tag)) = Except.ok (ct ++ tag))
    (htag : tag.length = 16) :
    encryptResponse prims m k iv = prims.b64encode (ct ++ tag) ∧
    prims.b64decode (encryptResponse prims m k iv) = Except.ok (ct ++ tag) ∧
    (ct ++ tag).length = ct.length + 16 ∧
    (ct ++ tag).drop ct.length = tag ∧
    (ct ++ tag).take ct.length = ct := by
  have h1 : encryptResponse prims m k iv = prims.b64encode (ct ++ tag) := by
    simp only [encryptResponse]
    rw [henc]
  refine ⟨h1, ?_, ?_, List.drop_left ct tag, List.take_left ct tag⟩
  · rw [h1]; exact hb64
  · simp [htag]

/-- Evaluation of `encrypt_response_output_format` at a concrete
response, key and IV. -/
theorem encrypt_response_output_format_witness :
    encryptResponse toyPrims (JsonVal.str "hi") [1] [2] =
      toyPrims.b64encode ([104, 105] ++ List.replicate 16 0) ∧
    toyPrims.b64decode (encryptResponse toyPrims (JsonVal.str "hi") [1] [2]) =
      Except.ok ([104, 105] ++ List.replicate 16 0) := by
  have h := encrypt_response_output_format toyPrims (JsonVal.str "hi") [1] [2]
    [104, 105] (List.replicate 16 0) (by decide) (by rfl) (by decide)
  exact ⟨h.1, h.2.1⟩

/-- Splitting a buffer that ends in a 16-byte tag with the Python
slices `buf[:-16]` / `buf[-16:]` recovers the ciphertext body and the
tag. -/
theorem split_tag (ct tag : List Nat) (htag : tag.length = TAG_LENGTH) :
    pySliceToNeg (ct ++ tag) TAG_LENGTH = ct ∧
    pySliceFromNeg (ct ++ tag) TAG_LENGTH = tag := by
  unfold pySliceToNeg pySliceFromNeg
  have hlen : (ct ++ tag).length - TAG_LENGTH = ct.length := by
    simp [htag]
  rw [hlen]
  exact ⟨List.take_left ct tag, List.drop_left ct tag⟩

/-- C2: decrypting a well-formed envelope — the symmetric key wrapped
under the matching private key, the payload equal to the AES-GCM
ciphertext of the UTF-8 JSON serialization of `m` under `(k, iv)`
with the 16-byte tag appended, each field base64-encoded — returns
exactly `m` together with the original key and IV.  The hypotheses
are the documented contracts of the external libraries at the inputs
involved. -/
theorem decrypt_request_roundtrip (prims : CryptoPrims) (m : JsonVal)
    (k iv wrapped ct tag : List Nat)
    (pem passphrase ek64 fd64 iv64 : String) (priv : prims.PrivKey)
    (hk : k.length = 16)
    (hload : prims.loadPemPrivateKey (prims.utf8Encode pem)
      (if passphrase = "" then none else some (prims.utf8Encode passphrase)) =
      Except.ok priv)
    (hb1 : prims.b64decode ek64 = Except.ok wrapped)
    (hrsa : prims.rsaOaepDecrypt priv wrapped = Except.ok k)
    (hb2 : prims.b64decode fd64 = Except.ok (ct ++ tag))
    (hb3 : prims.b64decode iv64 = Except.ok iv)
    (henc : prims.aesGcmEncrypt k iv (prims.utf8Encode (prims.jsonDumps m)) = (ct, tag))
    (htag : tag.length = TAG_LENGTH)
    (hdec : prims.aesGcmDecrypt k iv ct tag =
      Except.ok (prims.utf8Encode (prims.jsonDumps m)))
    (hutf : prims.utf8Decode (prims.utf8Encode (prims.jsonDumps m)) =
      Except.ok (prims.jsonDumps m))
    (hjson : prims.jsonLoads (prims.jsonDumps m) = Except.ok m) :
    decryptRequest prims ⟨some ek64, some fd64, some iv64⟩ pem passphrase =
      Except.ok ⟨m, k, iv⟩ := by
  have hsplit := split_tag ct tag htag
  simp only [decryptRequest, keyUnwrapStep, pyB64decode, hload, hb1, hrsa,
    hb2, hb3, hsplit.1, hsplit.2, hdec, hutf, hjson, htag]
  simp

/-- Evaluation of `decrypt_request_roundtrip` on a concrete envelope
carrying the plaintext "ping" under a 16-byte key. -/
theorem decrypt_request_roundtrip_witness :
    decryptRequest toyPrims
      ⟨some "0123456789abcdef",
        some (toyPrims.b64encode ([112, 105, 110, 103] ++ List.replicate 16 0)),
        some "iv"⟩ "p" "" =
      Except.ok ⟨JsonVal.str "ping",
        [48, 49, 50, 51, 52, 53, 54, 55, 56, 57, 97, 98, 99, 100, 101, 102],
        [105, 118]⟩ := by
  exact decrypt_request_roundtrip toyPrims (JsonVal.str "ping")
    [48, 49, 50, 51, 52, 53, 54, 55, 56, 57, 97, 98, 99, 100, 101, 102]
    [105, 118]
    [48, 49, 50, 51, 52, 53, 54, 55, 56, 57, 97, 98, 99, 100, 101, 102]
    [112, 105, 110, 103] (List.replicate 16 0)
    "p" "" "0123456789abcdef"
    (toyPrims.b64encode ([112, 105, 110, 103] ++ List.replicate 16 0)) "iv"
    [112]
    (by decide) (by rfl) (by rfl) (by rfl) (by rfl) (by rfl) (by rfl)
    (by decide) (by rfl) (by rfl) (by rfl)

/-- C1 counterexample: a failure while loading the private key (a
corrupted or empty key blob, or a passphrase mismatch — here the
loader rejecting the PEM bytes) happens before the `try` block of
`decrypt_request`, so it propagates as an unclassified `ValueError`
rather than the distinguished `FlowEndpointException(421)`. -/
theorem decrypt_request_keyload_failure_not_421 :
    decryptRequest toyPrims ⟨none, none, none⟩ "" "" =
      Except.error (PyError.lib LibError.valueError) ∧
    isFlowEndpointException (PyError.lib LibError.valueError) = false ∧
    PyError.lib LibError.valueError ≠ PyError.flowEndpoint 421 msg421 := by
  exact ⟨by rfl, by rfl, by decide⟩

/-- C1 (amended): when the private key loads successfully, any
failure of the key-unwrap step proper (base64-decoding the wrapped
key or the RSA-OAEP decryption) makes `decrypt_request` fail with
`FlowEndpointException(421)` and with no other exception; a failure
while loading the private key itself (corrupted key blob, passphrase
mismatch) instead propagates as the unclassified library exception. -/
theorem decrypt_request_unwrap_failure_classification (prims : CryptoPrims)
    (body : RequestBody) (pem passphrase : String) :
    (∀ (priv : prims.PrivKey) (e : LibError),
      prims.loadPemPrivateKey (prims.utf8Encode pem)
        (if passphrase = "" then none else some (prims.utf8Encode passphrase)) =
        Except.ok priv →
      keyUnwrapStep prims priv body.encrypted_aes_key = Except.error e →
      decryptRequest prims body pem passphrase =
        Except.error (PyError.flowEndpoint 421 msg421)) ∧
    (∀ e : LibError,
      prims.loadPemPrivateKey (prims.utf8Encode pem)
        (if passphrase = "" then none else some (prims.utf8Encode passphrase)) =
        Except.error e →
      decryptRequest prims body pem passphrase =
        Except.error (PyError.lib e)) := by
  constructor
  · intro priv e hload hfail
    simp only [decryptRequest, hload, hfail]
  · intro e hload
    simp only [decryptRequest, hload]

/-- Evaluation of `decrypt_request_unwrap_failure_classification`:
an empty wrapped key makes the RSA step fail, producing the 421
error; an empty PEM makes the key load fail, producing the
unclassified error. -/
theorem decrypt_request_unwrap_failure_classification_witness :
    decryptRequest toyPrims ⟨some "", none, none⟩ "p" "" =
      Except.error (PyError.flowEndpoint 421 msg421) ∧
    decryptRequest toyPrims ⟨some "k", none, none⟩ "" "" =
      Except.error (PyError.lib LibError.valueError) := by
  refine ⟨?_, ?_⟩
  · exact (decrypt_request_unwrap_failure_classification toyPrims
      ⟨some "", none, none⟩ "p" "").1 [112] LibError.valueError (by rfl) (by rfl)
  · exact (decrypt_request_unwrap_failure_classification toyPrims
      ⟨some "k", none, none⟩ "" "").2 LibError.valueError (by rfl)

/-- C7 counterexample: a payload shorter than the 16-byte tag makes
`decrypt_request` fail with a plain `ValueError` (raised by the GCM
mode constructor), which is not the code's classified
`FlowEndpointException`. -/
theorem short_payload_error_unclassified :
    decryptRequest toyPrims ⟨some "0123456789abcdef", some "abc", some "iv"⟩
      "p" "" = Except.error (PyError.lib LibError.valueError) ∧
    isFlowEndpointException (PyError.lib LibError.valueError) = false := by
  exact ⟨by rfl, by rfl⟩

/-- C7 (amended): whenever the key unwrap succeeds and the
base64-decoded payload is shorter than the 16-byte tag length,
`decrypt_request` fails with the `ValueError` raised by the GCM mode
constructor — a deterministic error, not a crash — which is not a
`FlowEndpointException` and which the endpoint's catch-all maps to
the generic status 500. -/
theorem short_payload_value_error (prims : CryptoPrims) (body : RequestBody)
    (pem passphrase : String) (priv : prims.PrivKey) (k buf iv : List Nat)
    (fd64 iv64 : String)
    (hfd : body.encrypted_flow_data = some fd64)
    (hiv : body.initial_vector = some iv64)
    (hload : prims.loadPemPrivateKey (prims.utf8Encode pem)
      (if passphrase = "" then none else some (prims.utf8Encode passphrase)) =
      Except.ok priv)
    (hunwrap : keyUnwrapStep prims priv body.encrypted_aes_key = Except.ok k)
    (hb2 : prims.b64decode fd64 = Except.ok buf)
    (hb3 : prims.b64decode iv64 = Except.ok iv)
    (hshort : buf.length < TAG_LENGTH) :
    decryptRequest prims body pem passphrase =
      Except.error (PyError.lib LibError.valueError) ∧
    isFlowEndpointException (PyError.lib LibError.valueError) = false ∧
    decryptErrorResponse (PyError.lib LibError.valueError) =
      FlowResponse.status 500 := by
  have hall : pySliceFromNeg buf TAG_LENGTH = buf := by
    unfold pySliceFromNeg
    have h0 : buf.length - TAG_LENGTH = 0 := by omega
    rw [h0, List.drop_zero]
  refine ⟨?_, rfl, rfl⟩
  simp only [decryptRequest, hload, hfd, hiv, hunwrap, pyB64decode, hb2, hb3,
    hall, hshort, if_true]

/-- Evaluation of `short_payload_value_error` on a concrete two-byte
payload. -/
theorem short_payload_value_error_witness :
    decryptRequest toyPrims ⟨some "0123456789abcdef", some "ab", some "iv"⟩
      "p" "" = Except.error (PyError.lib LibError.valueError) ∧
    isFlowEndpointException (PyError.lib LibError.valueError) = false ∧
    decryptErrorResponse (PyError.lib LibError.valueError) =
      FlowResponse.status 500 := by
  exact short_payload_value_error toyPrims
    ⟨some "0123456789abcdef", some "ab", some "iv"⟩ "p" "" [112]
    [48, 49, 50, 51, 52, 53, 54, 55, 56, 57, 97, 98, 99, 100, 101, 102]
    [97, 98] [105, 118] "ab" "iv"
    (by rfl) (by rfl) (by rfl) (by rfl) (by rfl) (by rfl) (by decide)

/-- C8: whenever the key unwrap succeeds (and the remaining fields
decode, with a full-length tag), a failure of the symmetric
decryption (authentication-tag mismatch, truncated ciphertext), of
the UTF-8 decoding, or of the JSON parsing makes `decrypt_request`
fail with exactly that unclassified library exception — never a
`FlowEndpointException` — and the endpoint maps it to the generic
status 500. -/
theorem post_unwrap_failures_generic_500 (prims : CryptoPrims)
    (body : RequestBody) (pem passphrase : String) (priv : prims.PrivKey)
    (k buf iv : List Nat) (fd64 iv64 : String)
    (hfd : body.encrypted_flow_data = some fd64)
    (hiv : body.initial_vector = some iv64)
    (hload : prims.loadPemPrivateKey (prims.utf8Encode pem)
      (if passphrase = "" then none else some (prims.utf8Encode passphrase)) =
      Except.ok priv)
    (hunwrap : keyUnwrapStep prims priv body.encrypted_aes_key = Except.ok k)
    (hb2 : prims.b64decode fd64 = Except.ok buf)
    (hb3 : prims.b64decode iv64 = Except.ok iv)
    (hlen : TAG_LENGTH ≤ buf.length) :
    (∀ e : LibError,
      prims.aesGcmDecrypt k iv (pySliceToNeg buf TAG_LENGTH)
        (pySliceFromNeg buf TAG_LENGTH) = Except.error e →
      decryptRequest prims body pem passphrase = Except.error (PyError.lib e) ∧
      isFlowEndpointException (PyError.lib e) = false ∧
      decryptErrorResponse (PyError.lib e) = FlowResponse.status 500) ∧
    (∀ (pt : List Nat) (e : LibError),
      prims.aesGcmDecrypt k iv (pySliceToNeg buf TAG_LENGTH)
        (pySliceFromNeg buf TAG_LENGTH) = Except.ok pt →
      prims.utf8Decode pt = Except.error e →
      decryptRequest prims body pem passphrase = Except.error (PyError.lib e) ∧
      isFlowEndpointException (PyError.lib e) = false ∧
      decryptErrorResponse (PyError.lib e) = FlowResponse.status 500) ∧
    (∀ (pt : List Nat) (s : String) (e : LibError),
      prims.aesGcmDecrypt k iv (pySliceToNeg buf TAG_LENGTH)
        (pySliceFromNeg buf TAG_LENGTH) = Except.ok pt →
      prims.utf8Decode pt = Except.ok s →
      prims.jsonLoads s = Except.error e →
      decryptRequest prims body pem passphrase = Except.error (PyError.lib e) ∧
      isFlowEndpointException (PyError.lib e) = false ∧
      decryptErrorResponse (PyError.lib e) = FlowResponse.status 500) := by
  have hguard : ¬ ((pySliceFromNeg buf TAG_LENGTH).length < TAG_LENGTH) := by
    unfold pySliceFromNeg
    simp only [List.length_drop]
    omega
  refine ⟨?_, ?_, ?_⟩
  · intro e hgcm
    refine ⟨?_, rfl, rfl⟩
    simp only [decryptRequest, hload, hfd, hiv, hunwrap, pyB64decode, hb2,
      hb3, hguard, if_false, hgcm]
  · intro pt e hgcm hutf
    refine ⟨?_, rfl, rfl⟩
    simp only [decryptRequest, hload, hfd, hiv, hunwrap, pyB64decode, hb2,
      hb3, hguard, if_false, hgcm, hutf]
  · intro pt s e hgcm hutf hjson
    refine ⟨?_, rfl, rfl⟩
    simp only [decryptRequest, hload, hfd, hiv, hunwrap, pyB64decode, hb2,
      hb3, hguard, if_false, hgcm, hutf, hjson]

/-- Evaluation of `post_unwrap_failures_generic_500` on concrete
envelopes triggering a tag mismatch, a UTF-8 decode failure and a
JSON parse failure. -/
theorem post_unwrap_failures_generic_500_witness :
    decryptRequest toyPrims
      ⟨some "k", some "0123456789abcdef", some "iv"⟩ "p" "" =
      Except.error (PyError.lib LibError.invalidTag) ∧
    decryptRequest toyPrims
      ⟨some "k", some (toyPrims.b64encode ([255] ++ List.replicate 16 0)),
        some "iv"⟩ "p" "" =
      Except.error (PyError.lib LibError.unicodeDecodeError) ∧
    decryptRequest toyPrims
      ⟨some "k",
        some (toyPrims.b64encode
          ([98, 97, 100, 32, 106, 115, 111, 110] ++ List.replicate 16 0)),
        some "iv"⟩ "p" "" =
      Except.error (PyError.lib LibError.jsonDecodeError) := by
  refine ⟨?_, ?_, ?_⟩
  · exact ((post_unwrap_failures_generic_500 toyPrims
      ⟨some "k", some "0123456789abcdef", some "iv"⟩ "p" "" [112] [107]
      [48, 49, 50, 51, 52, 53, 54, 55, 56, 57, 97, 98, 99, 100, 101, 102]
      [105, 118] "0123456789abcdef" "iv"
      (by rfl) (by rfl) (by rfl) (by rfl) (by rfl) (by rfl) (by decide)).1
      LibError.invalidTag (by rfl)).1
  · exact ((post_unwrap_failures_generic_500 toyPrims
      ⟨some "k", some (toyPrims.b64encode ([255] ++ List.replicate 16 0)),
        some "iv"⟩ "p" "" [112] [107]
      ([255] ++ List.replicate 16 0)
      [105, 118] (toyPrims.b64encode ([255] ++ List.replicate 16 0)) "iv"
      (by rfl) (by rfl) (by rfl) (by rfl) (by rfl) (by rfl) (by decide)).2.1
      [255] LibError.unicodeDecodeError (by rfl) (by rfl)).1
  · exact ((post_unwrap_failures_generic_500 toyPrims
      ⟨some "k",
        some (toyPrims.b64encode
          ([98, 97, 100, 32, 106, 115, 111, 110] ++ List.replicate 16 0)),
        some "iv"⟩ "p" "" [112] [107]
      ([98, 97, 100, 32, 106, 115, 111, 110] ++ List.replicate 16 0)
      [105, 118]
      (toyPrims.b64encode
        ([98, 97, 100, 32, 106, 115, 111, 110] ++ List.replicate 16 0)) "iv"
      (by rfl) (by rfl) (by rfl) (by rfl) (by rfl) (by rfl) (by decide)).2.2
      [98, 97, 100, 32, 106, 115, 111, 110] "bad json"
      LibError.jsonDecodeError (by rfl) (by rfl) (by rfl)).1

/-- C10: with a loadable private key, a missing `encrypted_aes_key`
field fails inside the key-unwrap `try` block (the `TypeError` from
`b64decode(None)` is caught there), so `decrypt_request` raises the
distinguished `FlowEndpointException(421)`; a missing
`encrypted_flow_data` or `initial_vector` field (with a valid wrapped
key) instead raises the `TypeError` unclassified, outside any
`try` block. -/
theorem missing_fields_error_classes (prims : CryptoPrims)
    (pem passphrase : String) (priv : prims.PrivKey)
    (hload : prims.loadPemPrivateKey (prims.utf8Encode pem)
      (if passphrase = "" then none else some (prims.utf8Encode passphrase)) =
      Except.ok priv) :
    (∀ (fd iv : Option String),
      decryptRequest prims ⟨none, fd, iv⟩ pem passphrase =
        Except.error (PyError.flowEndpoint 421 msg421)) ∧
    (∀ (ek64 : String) (k : List Nat) (iv : Option String),
      keyUnwrapStep prims priv (some ek64) = Except.ok k →
      decryptRequest prims ⟨some ek64, none, iv⟩ pem passphrase =
        Except.error (PyError.lib LibError.typeError) ∧
      isFlowEndpointException (PyError.lib LibError.typeError) = false) ∧
    (∀ (ek64 fd64 : String) (k buf : List Nat),
      keyUnwrapStep prims priv (some ek64) = Except.ok k →
      prims.b64decode fd64 = Except.ok buf →
      decryptRequest prims ⟨some ek64, some fd64, none⟩ pem passphrase =
        Except.error (PyError.lib LibError.typeError) ∧
      isFlowEndpointException (PyError.lib LibError.typeError) = false) := by
  refine ⟨?_, ?_, ?_⟩
  · intro fd iv
    simp only [decryptRequest, hload, keyUnwrapStep, pyB64decode]
  · intro ek64 k iv hunwrap
    refine ⟨?_, rfl⟩
    simp only [decryptRequest, hload, hunwrap, pyB64decode]
  · intro ek64 fd64 k buf hunwrap hb2
    refine ⟨?_, rfl⟩
    simp only [decryptRequest, hload, hunwrap, pyB64decode, hb2]

/-- Evaluation of `missing_fields_error_classes` on concrete bodies
with each field absent in turn. -/
theorem missing_fields_error_classes_witness :
    decryptRequest toyPrims ⟨none, none, none⟩ "p" "" =
      Except.error (PyError.flowEndpoint 421 msg421) ∧
    decryptRequest toyPrims ⟨some "k", none, none⟩ "p" "" =
      Except.error (PyError.lib LibError.typeError) ∧
    decryptRequest toyPrims ⟨some "k", some "x", none⟩ "p" "" =
      Except.error (PyError.lib LibError.typeError) := by
  have h := missing_fields_error_classes toyPrims "p" "" [112] (by rfl)
  exact ⟨h.1 none none,
    (h.2.1 "k" [107] none (by rfl)).1,
    (h.2.2 "k" "x" [107] [120] (by rfl) (by rfl)).1⟩

/-- The lowercase hex alphabet of `hexdigest()` output. -/
def isHexChar (c : Char) : Bool :=
  "0123456789abcdef".data.contains c

/-- Number of characters outside the hex alphabet. -/
def countNonHex (l : List Char) : Nat :=
  l.countP (fun c => !(isHexChar c))

/-- A character list with at most one non-hex character cannot
contain the scheme marker `"sha256="` (which has three non-hex
characters) as a contiguous substring. -/
theorem no_scheme_marker_of_almost_hex (s : List Char)
    (h : countNonHex s ≤ 1) : ¬ ("sha256=".data <:+: s) := by
  intro hinf
  have h3 : countNonHex "sha256=".data = 3 := by decide
  have hle : countNonHex "sha256=".data ≤ countNonHex s :=
    List.Sublist.countP_le _ hinf.sublist
  omega

/-- The replacement scan leaves a list without any occurrence of the
pattern unchanged. -/
theorem replaceAllGo_of_no_occurrence (pat s : List Char)
    (h : ¬ (pat <:+: s)) : replaceAllGo pat s = s := by
  induction s with
  | nil => rw [replaceAllGo]
  | cons c rest ih =>
    have hnp : ¬ (pat.isPrefixOf (c :: rest) = true) := fun hp =>
      h ((List.isPrefixOf_iff_prefix.1 hp).isInfix)
    rw [replaceAllGo, dif_neg (fun hc => hnp hc.2)]
    exact congrArg (c :: ·) (ih fun hi => h (List.infix_cons hi))

/-- The replacement scan removes the pattern when it sits at the
front of the list. -/
theorem replaceAllGo_append_self (pat s : List Char) (hpat : pat ≠ []) :
    replaceAllGo pat (pat ++ s) = replaceAllGo pat s := by
  cases pat with
  | nil => exact absurd rfl hpat
  | cons p ps =>
    have hpre : (p :: ps).isPrefixOf (p :: (ps ++ s)) = true :=
      List.isPrefixOf_iff_prefix.2 (List.prefix_append (p :: ps) s)
    rw [show (p :: ps) ++ s = p :: (ps ++ s) from rfl, replaceAllGo,
      dif_pos ⟨hpat, hpre⟩,
      show p :: (ps ++ s) = (p :: ps) ++ s from rfl, List.drop_left]

/-- Stripping the scheme marker from a string that is (at most one
character away from) a pure hex digest leaves it unchanged. -/
theorem pyReplaceErase_of_almost_hex (s : String)
    (h : countNonHex s.data ≤ 1) : pyReplaceErase s "sha256=" = s := by
  unfold pyReplaceErase
  rw [replaceAllGo_of_no_occurrence _ _ (no_scheme_marker_of_almost_hex s.data h)]

/-- Stripping the scheme marker from a prefixed almost-hex digest
yields the bare digest. -/
theorem pyReplaceErase_marker_append (s : String)
    (h : countNonHex s.data ≤ 1) :
    pyReplaceErase ("sha256=" ++ s) "sha256=" = s := by
  unfold pyReplaceErase
  rw [String.data_append,
    replaceAllGo_append_self _ _ (by decide),
    replaceAllGo_of_no_occurrence _ _ (no_scheme_marker_of_almost_hex s.data h)]

/-- A hex string has no non-hex characters. -/
theorem countNonHex_eq_zero (l : List Char) (h : ∀ c ∈ l, isHexChar c) :
    countNonHex l = 0 :=
  List.countP_eq_zero.2 fun c hc => by simp [h c hc]

/-- Every hex character is ASCII. -/
theorem hexChar_lt_128 (c : Char) (h : isHexChar c = true) : c.toNat < 128 := by
  have hm : c ∈ ("0123456789abcdef" : String).data := by
    simpa [isHexChar] using h
  fin_cases hm <;> decide

/-- A pure hex string is ASCII. -/
theorem isAsciiString_of_hex (s : String) (h : ∀ c ∈ s.data, isHexChar c) :
    isAsciiString s = true := by
  simp only [isAsciiString, List.all_eq_true, decide_eq_true_eq]
  intro c hc
  exact hexChar_lt_128 c (h c hc)

/-- C5 counterexample: flipping bit 7 of the first character of the
expected digest (the hex digit `'0'`, 0x30, becomes 0xB0) yields a
digest differing in exactly one bit on which the verifier does not
return false: `hmac.compare_digest` raises `TypeError` on the
non-ASCII string, and the exception propagates out of the
verifier. -/
theorem bit_flipped_digest_raises :
    isRequestSignatureValid toyPrims (some "s") (some "°a1b2c") [] =
      Except.error LibError.typeError ∧
    Except.error LibError.typeError ≠ (Except.ok false : Except LibError Bool) := by
  refine ⟨?_, fun h => Except.noConfusion h⟩
  have hstrip : pyReplaceErase "°a1b2c" "sha256=" = "°a1b2c" :=
    pyReplaceErase_of_almost_hex _ (by decide)
  simp only [isRequestSignatureValid, hstrip]
  rfl

/-- C5 (amended): for a fixed non-empty secret and raw body, the
verifier accepts the correct HMAC-SHA256 hex digest both bare and
with the `"sha256="` prefix (the prefix being stripped before the
comparison), and never accepts a differing digest: a differing
all-ASCII digest with at most one corrupted character (any bit flip
within the low seven bits, and any hex digest computed with a
different secret) is rejected with false, while a supplied digest
containing a non-ASCII character (any bit-7 flip) makes
`hmac.compare_digest` raise `TypeError` instead of returning
false. -/
theorem signature_verifier_accepts_and_rejects (prims : CryptoPrims)
    (secret : String) (raw_body : List Nat)
    (hsecret : secret ≠ "")
    (hhex : ∀ c ∈ (prims.hmacSha256Hex (prims.utf8Encode secret) raw_body).data,
      isHexChar c)
    (hne : prims.hmacSha256Hex (prims.utf8Encode secret) raw_body ≠ "") :
    isRequestSignatureValid prims (some secret)
      (some (prims.hmacSha256Hex (prims.utf8Encode secret) raw_body))
      raw_body = Except.ok true ∧
    isRequestSignatureValid prims (some secret)
      (some ("sha256=" ++ prims.hmacSha256Hex (prims.utf8Encode secret) raw_body))
      raw_body = Except.ok true ∧
    (∀ d : String, countNonHex d.data ≤ 1 → isAsciiString d = true →
      d ≠ prims.hmacSha256Hex (prims.utf8Encode secret) raw_body →
      isRequestSignatureValid prims (some secret) (some d) raw_body =
        Except.ok false) ∧
    (∀ d : String, countNonHex d.data ≤ 1 → isAsciiString d = false →
      isRequestSignatureValid prims (some secret) (some d) raw_body =
        Except.error LibError.typeError) := by
  have hE0 : countNonHex
      (prims.hmacSha256Hex (prims.utf8Encode secret) raw_body).data ≤ 1 := by
    rw [countNonHex_eq_zero _ hhex]
    omega
  have hEascii : isAsciiString
      (prims.hmacSha256Hex (prims.utf8Encode secret) raw_body) = true :=
    isAsciiString_of_hex _ hhex
  have hpne : ("sha256=" ++
      prims.hmacSha256Hex (prims.utf8Encode secret) raw_body) ≠ "" := by
    intro heq
    have hd := congrArg String.data heq
    rw [String.data_append] at hd
    simp at hd
  refine ⟨?_, ?_, ?_, ?_⟩
  · simp only [isRequestSignatureValid, if_neg hsecret, if_neg hne,
      pyReplaceErase_of_almost_hex _ hE0, compareDigest, hEascii]
    simp
  · simp only [isRequestSignatureValid, if_neg hsecret, if_neg hpne,
      pyReplaceErase_marker_append _ hE0, compareDigest, hEascii]
    simp
  · intro d hd1 hda hd2
    by_cases hd0 : d = ""
    · simp [isRequestSignatureValid, if_neg hsecret, hd0]
    · have hbeq : (prims.hmacSha256Hex (prims.utf8Encode secret) raw_body == d) =
          false := beq_eq_false_iff_ne.2 (Ne.symm hd2)
      simp only [isRequestSignatureValid, if_neg hsecret, if_neg hd0,
        pyReplaceErase_of_almost_hex _ hd1, compareDigest, hEascii, hda, hbeq]
      simp
  · intro d hd1 hda
    have hd0 : d ≠ "" := by
      intro h0
      rw [h0] at hda
      exact absurd hda (by decide)
    simp only [isRequestSignatureValid, if_neg hsecret, if_neg hd0,
      pyReplaceErase_of_almost_hex _ hd1, compareDigest, hEascii, hda]
    simp

/-- Evaluation of `signature_verifier_accepts_and_rejects` at a
concrete secret and body: the digest is accepted bare and prefixed,
an ASCII mismatch returns false, and a digest whose last character
has bit 7 flipped raises. -/
theorem signature_verifier_accepts_and_rejects_witness :
    isRequestSignatureValid toyPrims (some "s") (some "0a1b2c") [] =
      Except.ok true ∧
    isRequestSignatureValid toyPrims (some "s")
      (some ("sha256=" ++ "0a1b2c")) [] = Except.ok true ∧
    isRequestSignatureValid toyPrims (some "s") (some "ffffff") [] =
      Except.ok false ∧
    isRequestSignatureValid toyPrims (some "s") (some "0a1b2ã") [] =
      Except.error LibError.typeError := by
  have h := signature_verifier_accepts_and_rejects toyPrims "s" []
    (by decide) (by decide) (by decide)
  exact ⟨h.1, h.2.1,
    h.2.2.1 "ffffff" (by decide) (by decide) (by decide),
    h.2.2.2 "0a1b2ã" (by decide) (by decide)⟩

/-- C6 counterexample: on a mismatching header consisting of the
single non-ASCII character 0xFF, the verifier does not return false:
`hmac.compare_digest` raises `TypeError`, which propagates out of
`is_request_signature_valid`. -/
theorem signature_mismatch_non_ascii_raises :
    isRequestSignatureValid toyPrims (some "s") (some "ÿ") [] =
      Except.error LibError.typeError ∧
    Except.error LibError.typeError ≠ (Except.ok false : Except LibError Bool) := by
  refine ⟨?_, fun h => Except.noConfusion h⟩
  have hstrip : pyReplaceErase "ÿ" "sha256=" = "ÿ" :=
    pyReplaceErase_of_almost_hex _ (by decide)
  simp only [isRequestSignatureValid, hstrip]
  rfl

/-- C6 (amended): the verifier returns false — without raising and,
being a pure function of its inputs, without side effects — whenever
the configured secret is unset or empty or the header is missing or
empty; on a digest mismatch it returns false when the expected
digest and the stripped header are both ASCII, but when either
contains a non-ASCII character `hmac.compare_digest` raises
`TypeError`, which propagates to the caller instead of a false
return. -/
theorem signature_verifier_fail_closed (prims : CryptoPrims)
    (raw_body : List Nat) :
    (∀ h : Option String,
      isRequestSignatureValid prims none h raw_body = Except.ok false) ∧
    (∀ h : Option String,
      isRequestSignatureValid prims (some "") h raw_body = Except.ok false) ∧
    (∀ s : Option String,
      isRequestSignatureValid prims s none raw_body = Except.ok false) ∧
    (∀ s : Option String,
      isRequestSignatureValid prims s (some "") raw_body = Except.ok false) ∧
    (∀ (secret header : String),
      isAsciiString (prims.hmacSha256Hex (prims.utf8Encode secret) raw_body) = true →
      isAsciiString (pyReplaceErase header "sha256=") = true →
      pyReplaceErase header "sha256=" ≠
        prims.hmacSha256Hex (prims.utf8Encode secret) raw_body →
      isRequestSignatureValid prims (some secret) (some header) raw_body =
        Except.ok false) ∧
    (∀ (secret header : String), secret ≠ "" → header ≠ "" →
      (isAsciiString (prims.hmacSha256Hex (prims.utf8Encode secret) raw_body) = false ∨
        isAsciiString (pyReplaceErase header "sha256=") = false) →
      isRequestSignatureValid prims (some secret) (some header) raw_body =
        Except.error LibError.typeError) := by
  refine ⟨fun h => rfl, fun h => by simp [isRequestSignatureValid],
    ?_, ?_, ?_, ?_⟩
  · intro s
    cases s with
    | none => rfl
    | some secret =>
      by_cases hs : secret = "" <;> simp [isRequestSignatureValid, hs]
  · intro s
    cases s with
    | none => rfl
    | some secret =>
      by_cases hs : secret = "" <;> simp [isRequestSignatureValid, hs]
  · intro secret header hEa hsa hmis
    by_cases hs : secret = ""
    · simp [isRequestSignatureValid, hs]
    · by_cases hh : header = ""
      · simp [isRequestSignatureValid, hs, hh]
      · have hbeq : (prims.hmacSha256Hex (prims.utf8Encode secret) raw_body ==
            pyReplaceErase header "sha256=") = false :=
          beq_eq_false_iff_ne.2 (Ne.symm hmis)
        simp only [isRequestSignatureValid, if_neg hs, if_neg hh,
          compareDigest, hEa, hsa, hbeq]
        simp
  · intro secret header hs hh hor
    have hfalse : (isAsciiString
          (prims.hmacSha256Hex (prims.utf8Encode secret) raw_body) &&
        isAsciiString (pyReplaceErase header "sha256=")) = false := by
      rcases hor with h1 | h1 <;> simp [h1]
    simp only [isRequestSignatureValid, if_neg hs, if_neg hh, compareDigest,
      hfalse]
    simp

/-- Evaluation of `signature_verifier_fail_closed` at concrete
inputs: unset secret, empty secret, missing header, empty header, an
ASCII mismatching header, and a non-ASCII header on which the
verifier raises. -/
theorem signature_verifier_fail_closed_witness :
    isRequestSignatureValid toyPrims none (some "0a1b2c") [] = Except.ok false ∧
    isRequestSignatureValid toyPrims (some "") (some "0a1b2c") [] =
      Except.ok false ∧
    isRequestSignatureValid toyPrims (some "s") none [] = Except.ok false ∧
    isRequestSignatureValid toyPrims (some "s") (some "") [] = Except.ok false ∧
    isRequestSignatureValid toyPrims (some "s") (some "ff") [] =
      Except.ok false ∧
    isRequestSignatureValid toyPrims (some "s") (some "aÿ") [] =
      Except.error LibError.typeError := by
  have h := signature_verifier_fail_closed toyPrims []
  have hff : pyReplaceErase "ff" "sha256=" = "ff" :=
    pyReplaceErase_of_almost_hex _ (by decide)
  have haf : pyReplaceErase "aÿ" "sha256=" = "aÿ" :=
    pyReplaceErase_of_almost_hex _ (by decide)
  refine ⟨h.1 _, h.2.1 _, h.2.2.1 _, h.2.2.2.1 _, ?_, ?_⟩
  · exact h.2.2.2.2.1 "s" "ff" (by decide) (by rw [hff]; decide)
      (by rw [hff]; decide)
  · exact h.2.2.2.2.2 "s" "aÿ" (by decide) (by decide)
      (Or.inr (by rw [haf]; decide))
